import Mathlib

/-
Verification of the reasoning-dispatch core of the openwhisprz repository:
provider resolution (ModelRegistry.getModelProvider), credential lookup
(ReasoningService.getApiKey), endpoint resolution and dialect preference
memory (getConfiguredOpenAIBase, getOpenAIEndpointCandidates,
getStoredOpenAiPreference, rememberOpenAiPreference), the OpenAI and Gemini
call pipelines (processWithOpenAI, processWithGemini), the local reasoning
bridge (localReasoningBridge processText, calculateMaxTokens) and the
PromptStudio testPrompt storage frame.

The HTTP layer is abstracted by an oracle mapping each attempted endpoint to
its outcome; request-body construction is elided because its only observable
effect is through that oracle. JavaScript string truthiness is rendered as
inequality with the empty string.
-/

set_option maxRecDepth 4096

/-! ### Generic string and association-list helpers -/

/-- Checks that the first character list occurs at the head of the second. -/
def listPre : List Char → List Char → Bool
  | [], _ => true
  | _ :: _, [] => false
  | a :: as, b :: bs => a == b && listPre as bs

/-- Checks that the first character list contains the second as a contiguous run. -/
def listHasSub : List Char → List Char → Bool
  | [], sub => sub.isEmpty
  | a :: t, sub => listPre sub (a :: t) || listHasSub t sub

/-- Embedding of the JavaScript String.prototype.includes test. -/
def includesStr (s sub : String) : Bool :=
  listHasSub s.toList sub.toList

/-- Whitespace test used by the trim embedding. -/
def wsChar (c : Char) : Bool :=
  c == ' ' || c == '\t' || c == '\n' || c == '\r'

/-- Embedding of the JavaScript String.prototype.trim, over character lists
so that it evaluates inside the kernel. -/
def strTrim (s : String) : String :=
  String.mk (((s.toList.dropWhile wsChar).reverse.dropWhile wsChar).reverse)

/-- ASCII lowercase conversion of one character. -/
def charLower (c : Char) : Char :=
  if 'A' ≤ c ∧ c ≤ 'Z' then Char.ofNat (c.toNat + 32) else c

/-- Embedding of the JavaScript String.prototype.toLowerCase, over character
lists so that it evaluates inside the kernel. -/
def strToLower (s : String) : String :=
  String.mk (s.toList.map charLower)

/-- Embedding of the JavaScript String.prototype.endsWith test. -/
def strEndsWith (s suf : String) : Bool :=
  listPre suf.toList.reverse s.toList.reverse

/-- Embedding of the JavaScript String.prototype.startsWith test. -/
def strStartsWith (s pre : String) : Bool :=
  listPre pre.toList s.toList

/-- Lookup in an association list keyed by strings, first match wins. -/
def lookupA {α : Type} : List (String × α) → String → Option α
  | [], _ => none
  | (k, v) :: t, key => if k = key then some v else lookupA t key

/-- Overwrite-or-append update of an association list keyed by strings. -/
def setA {α : Type} : List (String × α) → String → α → List (String × α)
  | [], key, v => [(key, v)]
  | (k, w) :: t, key, v => if k = key then (key, v) :: t else (k, w) :: setA t key v

/-- Removal of a key from an association list keyed by strings. -/
def eraseA {α : Type} : List (String × α) → String → List (String × α)
  | [], _ => []
  | (k, w) :: t, key => if k = key then eraseA t key else (k, w) :: eraseA t key

theorem lookupA_setA {α : Type} (l : List (String × α)) (k : String) (v : α) :
    lookupA (setA l k v) k = some v := by
  induction l with
  | nil => simp [setA, lookupA]
  | cons kv t ih =>
    obtain ⟨k0, v0⟩ := kv
    by_cases h : k0 = k <;> simp [setA, lookupA, h, ih]

theorem lookupA_eraseA {α : Type} (l : List (String × α)) (k : String) :
    lookupA (eraseA l k) k = none := by
  induction l with
  | nil => simp [eraseA, lookupA]
  | cons kv t ih =>
    obtain ⟨k0, v0⟩ := kv
    by_cases h : k0 = k <;> simp [eraseA, lookupA, h, ih]

/-! ### Local reasoning bridge (src/src/services/localReasoningBridge.js) -/

/-- Embedding of LocalReasoningService.calculateMaxTokens:
Math.max(minTokens, Math.min(textLength * multiplier, maxTokens)). -/
def LocalBridge.calculateMaxTokens (textLength minTokens maxTokens multiplier : Nat) : Nat :=
  max minTokens (min (textLength * multiplier) maxTokens)

/-- Spec-side definition: clamp(x, lo, hi) as written in the specification. -/
def specClamp (x lo hi : Nat) : Nat :=
  max lo (min x hi)

/-- Environment of the local reasoning bridge: the REASONING_PROVIDER
environment variable, the model table (id, isDownloaded) and the inference
backend treated as an oracle. -/
structure LocalBridgeEnv where
  envReasoningProvider : Option String
  models : List (String × Bool)
  inference : String → String → Except String String

/-- Embedding of LocalReasoningService.processText from
src/src/services/localReasoningBridge.js: provider-environment gate, then the
in-flight guard, then the model-downloaded check, then inference. Logging and
timing are elided. -/
def LocalBridge.processText (env : LocalBridgeEnv) (isProcessing : Bool)
    (text modelId : String) : Except String String :=
  let rp := env.envReasoningProvider.getD ""
  if ¬(rp = "") ∧ ¬(rp = "local") then
    Except.error ("Local reasoning is disabled while provider is set to " ++ rp)
  else if isProcessing then
    Except.error "Already processing a request"
  else
    match lookupA env.models modelId with
    | none => Except.error ("Local model " ++ modelId ++ " is not downloaded")
    | some isDownloaded =>
      if isDownloaded then env.inference modelId text
      else Except.error ("Local model " ++ modelId ++ " is not downloaded")

/-! ### Credential resolver (ReasoningService.getApiKey) -/

/-- The closed provider set handled by getApiKey. -/
inductive Provider
  | openai
  | anthropic
  | gemini
  | groq
  | custom
deriving DecidableEq, Repr

/-- Lowercase identifier of a provider as used in the source. -/
def providerName : Provider → String
  | Provider.openai => "openai"
  | Provider.anthropic => "anthropic"
  | Provider.gemini => "gemini"
  | Provider.groq => "groq"
  | Provider.custom => "custom"

/-- Embedding of provider.charAt(0).toUpperCase() + provider.slice(1). -/
def capitalizeFirst (s : String) : String :=
  match s.toList with
  | [] => ""
  | c :: rest => String.mk (c.toUpper :: rest)

/-- The error message thrown by getApiKey when no key is available. -/
def keyMissingMsg (p : Provider) : String :=
  capitalizeFirst (providerName p) ++ " API key not configured"

/-- Environment of the credential resolver: the in-memory SecureCache
content, the electronAPI key getters (error means the IPC call threw,
ok none means it returned null or undefined) and the localStorage fallback
for the custom provider. -/
structure KeyEnv where
  cache : Provider → Option String
  fetchKey : Provider → Except Unit (Option String)
  customIpcKey : Except Unit (Option String)
  lsCustomKey : Option String

/-- The cache read of getApiKey: a cached empty string is falsy and triggers
the external fetch, exactly like a cache miss. -/
def cacheHit (p : Provider) (env : KeyEnv) : Option String :=
  match env.cache p with
  | some s => if s = "" then none else some s
  | none => none

/-- The value of the apiKey variable in getApiKey after the cache read and
the external secure-store fetch (a thrown fetch is caught and leaves the key
undefined). -/
def keyAfterFetch (p : Provider) (env : KeyEnv) : Option String :=
  match cacheHit p env with
  | some s => some s
  | none =>
    match env.fetchKey p with
    | Except.ok (some s) => some s
    | Except.ok none => none
    | Except.error _ => none

/-- The key computed by the custom-provider branch of getApiKey: the IPC key
if truthy and not blank, otherwise the localStorage fallback, trimmed. -/
def customResolvedKey (env : KeyEnv) : String :=
  let ipc := match env.customIpcKey with
    | Except.ok (some s) => s
    | Except.ok none => ""
    | Except.error _ => ""
  let k := if ipc = "" ∨ strTrim ipc = "" then env.lsCustomKey.getD "" else ipc
  strTrim k

/-- Embedding of ReasoningService.getApiKey. For the custom provider the
trimmed key is returned unconditionally; for the other providers a falsy key
after cache and fetch raises the missing-key error. -/
def getApiKey (p : Provider) (env : KeyEnv) : Except String String :=
  if p = Provider.custom then
    Except.ok (customResolvedKey env)
  else
    match keyAfterFetch p env with
    | some s => if s = "" then Except.error (keyMissingMsg p) else Except.ok s
    | none => Except.error (keyMissingMsg p)

/-! ### Provider resolution (ModelRegistry.getModelProvider) -/

/-- Embedding of getModelProvider. The registry of known reasoning models is
passed as an association list from model id to provider id, standing for
getAllReasoningModels() built from the static JSON registry data (which is
not part of the sources). -/
def getModelProvider (registry : List (String × String)) (modelId : String)
    (preferredProvider : Option String) (allowLocalFallback : Bool) : String :=
  let normalizedPreferred := strToLower (strTrim (preferredProvider.getD ""))
  if ¬(normalizedPreferred = "") ∧ ¬(normalizedPreferred = "auto") then
    if normalizedPreferred = "custom" then "openai" else normalizedPreferred
  else
    match lookupA registry modelId with
    | some p => if p = "" then "openai" else p
    | none =>
      if includesStr modelId "claude" then "anthropic"
      else if includesStr modelId "gemini" && !includesStr modelId "gemma" then "gemini"
      else if (includesStr modelId "gpt-4" || includesStr modelId "gpt-5")
              && !includesStr modelId "gpt-oss" then "openai"
      else if includesStr modelId "qwen/" || includesStr modelId "openai/"
              || includesStr modelId "llama-3.1-8b-instant" || includesStr modelId "llama-3.3-"
              || includesStr modelId "mixtral-" || includesStr modelId "gemma2-" then "groq"
      else if allowLocalFallback
              && (includesStr modelId "qwen" || includesStr modelId "llama"
                  || includesStr modelId "mistral"
                  || includesStr modelId "gpt-oss-20b-mxfp4") then "local"
      else "openai"

/-! ### Endpoint resolver (getConfiguredOpenAIBase and candidates) -/

/-- Modelled from the spec: API_ENDPOINTS.OPENAI_BASE from config/constants,
which is not under src. The default OpenAI base URL. -/
def OPENAI_BASE : String := "https://api.openai.com/v1"

/-- Drops trailing slash characters from a character list. -/
def dropTrailingSlashes (l : List Char) : List Char :=
  (l.reverse.dropWhile (fun c => c == '/')).reverse

/-- Modelled from the spec: normalizeBaseUrl from config/constants, which is
not under src. Trims surrounding whitespace and trailing slashes so that
preferences are keyed by a normalized base URL. -/
def normalizeBaseUrl (s : String) : String :=
  String.mk (dropTrailingSlashes (strTrim s).toList)

/-- Modelled from the spec: isSecureEndpoint from utils/urlUtils, which is
not under src. HTTPS is required; plain HTTP is permitted only for recognized
local or loopback addresses. -/
def isSecureEndpoint (url : String) : Bool :=
  strStartsWith url "https://"
    || (strStartsWith url "http://"
        && (includesStr url "localhost" || includesStr url "127.0.0.1"
            || includesStr url "192.168." || includesStr url "::1"))

/-- The vendor hosts rejected by getConfiguredOpenAIBase. -/
def knownNonOpenAIUrls : List String :=
  ["api.groq.com", "api.anthropic.com", "generativelanguage.googleapis.com"]

/-- Embedding of ReasoningService.getConfiguredOpenAIBase. The two
localStorage reads (reasoningProvider, cloudReasoningBaseUrl) are passed as
arguments; logging is elided. -/
def getConfiguredOpenAIBase (reasoningProvider cloudReasoningBaseUrl : Option String) : String :=
  let provider := reasoningProvider.getD ""
  if ¬(provider = "custom") then OPENAI_BASE
  else
    let trimmed := strTrim (cloudReasoningBaseUrl.getD "")
    if trimmed = "" then OPENAI_BASE
    else
      let n0 := normalizeBaseUrl trimmed
      let normalized := if n0 = "" then OPENAI_BASE else n0
      if knownNonOpenAIUrls.any (fun u => includesStr normalized u) then OPENAI_BASE
      else if ¬(isSecureEndpoint normalized = true) then OPENAI_BASE
      else normalized

/-- The two OpenAI-compatible request dialects. -/
inductive Dialect
  | responses
  | chat
deriving DecidableEq, Repr

/-- An endpoint candidate: a URL paired with its dialect. -/
structure EndpointCandidate where
  url : String
  type : Dialect
deriving DecidableEq, Repr

/-- The dialect preference state of the service: the in-memory Map and the
persisted localStorage map. The JSON round-trip through localStorage is
elided; the persisted map is carried already parsed. -/
structure PrefState where
  mem : List (String × Dialect)
  stored : List (String × Dialect)
deriving DecidableEq, Repr

/-- Embedding of getStoredOpenAiPreference: the in-memory map wins; a valid
persisted value is copied into the in-memory map when read. -/
def getStoredOpenAiPreference (st : PrefState) (base : String) : Option Dialect × PrefState :=
  match lookupA st.mem base with
  | some d => (some d, st)
  | none =>
    match lookupA st.stored base with
    | some d => (some d, { st with mem := setA st.mem base d })
    | none => (none, st)

/-- Embedding of rememberOpenAiPreference: updates the in-memory map and the
persisted map (the persisted write failure is swallowed in the source and is
not modelled). -/
def rememberOpenAiPreference (st : PrefState) (base : String) (d : Dialect) : PrefState :=
  { mem := setA st.mem base d, stored := setA st.stored base d }

/-- Modelled from the spec: buildApiUrl from config/constants, which is not
under src. Joins a base URL and a path suffix. -/
def buildApiUrl (base path : String) : String :=
  base ++ path

/-- The dialect-specific path suffix test at the head of
getOpenAIEndpointCandidates. -/
def hasDialectSuffix (base : String) : Bool :=
  strEndsWith (strToLower base) "/responses" || strEndsWith (strToLower base) "/chat/completions"

/-- Embedding of getOpenAIEndpointCandidates: a base already naming a dialect
path yields that single candidate; a remembered chat preference yields the
single chat candidate; otherwise both dialects are returned, responses first. -/
def getOpenAIEndpointCandidates (st : PrefState) (base : String) :
    List EndpointCandidate × PrefState :=
  if hasDialectSuffix base then
    ([{ url := base,
        type := if strEndsWith (strToLower base) "/responses" then Dialect.responses
                else Dialect.chat }], st)
  else
    let pr := getStoredOpenAiPreference st base
    if pr.fst = some Dialect.chat then
      ([{ url := buildApiUrl base "/chat/completions", type := Dialect.chat }], pr.snd)
    else
      ([{ url := buildApiUrl base "/responses", type := Dialect.responses },
        { url := buildApiUrl base "/chat/completions", type := Dialect.chat }], pr.snd)

/-! ### Claim theorems settled so far -/

/-- Claim C9: calculateMaxTokens(textLength, minTokens, maxTokens, multiplier)
equals clamp(textLength * multiplier, minTokens, maxTokens); in particular it
is 100 at (10, 100, 2048, 2), 2048 at (2000, 100, 2048, 2) and 1000 at
(500, 100, 2048, 2). -/
theorem claim_C9 :
    (∀ textLength minTokens maxTokens multiplier : Nat,
       LocalBridge.calculateMaxTokens textLength minTokens maxTokens multiplier
         = specClamp (textLength * multiplier) minTokens maxTokens)
    ∧ LocalBridge.calculateMaxTokens 10 100 2048 2 = 100
    ∧ LocalBridge.calculateMaxTokens 2000 100 2048 2 = 2048
    ∧ LocalBridge.calculateMaxTokens 500 100 2048 2 = 1000 := by
  refine ⟨fun a b c d => rfl, ?_, ?_, ?_⟩ <;> decide

/-- Claim C6: with provider custom, the base URL https://api.anthropic.com/v1
is rejected as a known non-OpenAI vendor and resolution returns the default
OpenAI base instead of the supplied URL; a blank override and an override
failing the secure-transport check fall back the same way. -/
theorem claim_C6 :
    getConfiguredOpenAIBase (some "custom") (some "https://api.anthropic.com/v1") = OPENAI_BASE
    ∧ ¬(OPENAI_BASE = "https://api.anthropic.com/v1")
    ∧ getConfiguredOpenAIBase (some "custom") (some "   ") = OPENAI_BASE
    ∧ getConfiguredOpenAIBase (some "custom") (some "http://example.com/v1") = OPENAI_BASE := by
  refine ⟨?_, ?_, ?_, ?_⟩ <;> decide

/-- An environment with no credential available anywhere: empty cache,
throwing or null key getters, no localStorage fallback. -/
def envNoKeys : KeyEnv :=
  { cache := fun _ => none
    fetchKey := fun _ => Except.error ()
    customIpcKey := Except.ok none
    lsCustomKey := none }

/-- Claim C3 counterexample: for the custom provider with no secret available
from the IPC store or the localStorage fallback, getApiKey succeeds with the
empty string instead of failing with a credential-missing error. -/
theorem claim_C3_counterexample :
    getApiKey Provider.custom envNoKeys = Except.ok "" := rfl

/-- Claim C3 as amended: for the four non-custom providers the lookup fails
with the missing-key error whenever neither the cache nor the secure-store
fetch yields a truthy key, and a success never carries an empty secret; for
the custom provider the lookup never fails and returns the trimmed fallback
chain value, which may be empty. -/
theorem claim_C3_amended :
    (∀ (env : KeyEnv) (p : Provider), ¬(p = Provider.custom) →
       (keyAfterFetch p env = none ∨ keyAfterFetch p env = some "") →
       getApiKey p env = Except.error (keyMissingMsg p))
    ∧ (∀ (env : KeyEnv) (p : Provider) (s : String), ¬(p = Provider.custom) →
       getApiKey p env = Except.ok s → ¬(s = ""))
    ∧ (∀ env : KeyEnv, getApiKey Provider.custom env = Except.ok (customResolvedKey env)) := by
  refine ⟨?_, ?_, ?_⟩
  · intro env p hp hk
    rcases hk with hk | hk <;> simp [getApiKey, hp, hk]
  · intro env p s hp hok
    simp only [getApiKey, if_neg hp] at hok
    cases hkey : keyAfterFetch p env with
    | none => rw [hkey] at hok; simp at hok
    | some t =>
      rw [hkey] at hok
      by_cases ht : t = ""
      · simp [ht] at hok
      · simp [ht] at hok
        rw [← hok]
        exact ht
  · intro env
    simp [getApiKey]

/-- An environment whose secure-store fetch returns the empty string. -/
def envEmptyFetch : KeyEnv :=
  { cache := fun _ => none
    fetchKey := fun _ => Except.ok (some "")
    customIpcKey := Except.ok none
    lsCustomKey := none }

/-- Claim C3 witness: the amended failure case at the concrete no-key
environment, the failure case where the fetch yields an empty secret, and
the amended custom case. -/
theorem claim_C3_witness :
    getApiKey Provider.openai envNoKeys = Except.error (keyMissingMsg Provider.openai)
    ∧ getApiKey Provider.gemini envEmptyFetch = Except.error (keyMissingMsg Provider.gemini)
    ∧ getApiKey Provider.custom envNoKeys = Except.ok (customResolvedKey envNoKeys) :=
  ⟨claim_C3_amended.1 envNoKeys Provider.openai (by decide) (Or.inl rfl),
   claim_C3_amended.1 envEmptyFetch Provider.gemini (by decide) (Or.inr rfl),
   claim_C3_amended.2.2 envNoKeys⟩

/-- Claim C5 counterexample: claude-gemini contains gemini and not gemma, has
no explicit override and is not in the registry, yet provider resolution
yields anthropic because the claude check runs first. -/
theorem claim_C5_counterexample :
    includesStr "claude-gemini" "gemini" = true
    ∧ includesStr "claude-gemini" "gemma" = false
    ∧ getModelProvider [] "claude-gemini" none true = "anthropic" := by
  refine ⟨?_, ?_, ?_⟩ <;> decide

/-- Claim C5 as amended: for a modelId that is not in the registry and has no
explicit override, containing gemini but neither gemma nor claude resolves to
gemini; containing gemma never resolves to gemini. -/
theorem claim_C5_amended :
    (∀ (registry : List (String × String)) (modelId : String)
       (preferred : Option String) (allowLocal : Bool),
       (strToLower (strTrim (preferred.getD "")) = ""
         ∨ strToLower (strTrim (preferred.getD "")) = "auto") →
       lookupA registry modelId = none →
       includesStr modelId "gemini" = true →
       includesStr modelId "gemma" = false →
       includesStr modelId "claude" = false →
       getModelProvider registry modelId preferred allowLocal = "gemini")
    ∧ (∀ (registry : List (String × String)) (modelId : String)
       (preferred : Option String) (allowLocal : Bool),
       (strToLower (strTrim (preferred.getD "")) = ""
         ∨ strToLower (strTrim (preferred.getD "")) = "auto") →
       lookupA registry modelId = none →
       includesStr modelId "gemma" = true →
       ¬(getModelProvider registry modelId preferred allowLocal = "gemini")) := by
  constructor
  · intro registry modelId preferred allowLocal hpref hreg hg hgm hc
    rcases hpref with h | h <;>
      simp [getModelProvider, h, hreg, hg, hgm, hc]
  · intro registry modelId preferred allowLocal hpref hreg hg
    rcases hpref with h | h <;>
    · simp only [getModelProvider, h, hreg, hg]
      split_ifs <;> simp_all

/-- Claim C5 witness: the amended positive and negative cases at concrete
model identifiers. -/
theorem claim_C5_witness :
    getModelProvider [] "gemini-2.5-flash" none true = "gemini"
    ∧ ¬(getModelProvider [] "gemma2-9b-it" none true = "gemini") :=
  ⟨claim_C5_amended.1 [] "gemini-2.5-flash" none true (Or.inl rfl) rfl
     (by decide) (by decide) (by decide),
   claim_C5_amended.2 [] "gemma2-9b-it" none true (Or.inl rfl) rfl (by decide)⟩

/-- A preference state remembering the responses dialect for the example
base, in the in-memory map. -/
def prefStateResp : PrefState :=
  { mem := [("https://example.com/v1", Dialect.responses)], stored := [] }

/-- Claim C2 counterexample: for a base without a dialect path suffix and a
remembered responses preference, candidate resolution returns two candidates,
not exactly the one matching the remembered preference. -/
theorem claim_C2_counterexample :
    hasDialectSuffix "https://example.com/v1" = false
    ∧ (getStoredOpenAiPreference prefStateResp "https://example.com/v1").fst
        = some Dialect.responses
    ∧ (getOpenAIEndpointCandidates prefStateResp "https://example.com/v1").fst.length = 2 := by
  refine ⟨?_, ?_, ?_⟩ <;> decide

/-- Claim C2 as amended: for a base without a dialect path suffix, only a
remembered chat preference prunes resolution to the single chat candidate; a
remembered responses preference, like no preference at all, yields both
dialects in order, responses first and chat second. -/
theorem claim_C2_amended :
    (∀ (st : PrefState) (base : String),
       hasDialectSuffix base = false →
       (getStoredOpenAiPreference st base).fst = some Dialect.chat →
       (getOpenAIEndpointCandidates st base).fst
         = [{ url := buildApiUrl base "/chat/completions", type := Dialect.chat }])
    ∧ (∀ (st : PrefState) (base : String),
       hasDialectSuffix base = false →
       (getStoredOpenAiPreference st base).fst = some Dialect.responses →
       (getOpenAIEndpointCandidates st base).fst
         = [{ url := buildApiUrl base "/responses", type := Dialect.responses },
            { url := buildApiUrl base "/chat/completions", type := Dialect.chat }])
    ∧ (∀ (st : PrefState) (base : String),
       hasDialectSuffix base = false →
       (getStoredOpenAiPreference st base).fst = none →
       (getOpenAIEndpointCandidates st base).fst
         = [{ url := buildApiUrl base "/responses", type := Dialect.responses },
            { url := buildApiUrl base "/chat/completions", type := Dialect.chat }]) := by
  refine ⟨?_, ?_, ?_⟩ <;>
  · intro st base h1 h2
    simp [getOpenAIEndpointCandidates, h1, h2]

/-- Claim C2 witness: the amended chat-preference, responses-preference and
no-preference cases at concrete states. -/
theorem claim_C2_witness :
    (getOpenAIEndpointCandidates
        { mem := [("https://example.com/v1", Dialect.chat)], stored := [] }
        "https://example.com/v1").fst
      = [{ url := buildApiUrl "https://example.com/v1" "/chat/completions",
           type := Dialect.chat }]
    ∧ (getOpenAIEndpointCandidates prefStateResp "https://example.com/v1").fst
      = [{ url := buildApiUrl "https://example.com/v1" "/responses",
           type := Dialect.responses },
         { url := buildApiUrl "https://example.com/v1" "/chat/completions",
           type := Dialect.chat }]
    ∧ (getOpenAIEndpointCandidates { mem := [], stored := [] } "https://example.com/v1").fst
      = [{ url := buildApiUrl "https://example.com/v1" "/responses",
           type := Dialect.responses },
         { url := buildApiUrl "https://example.com/v1" "/chat/completions",
           type := Dialect.chat }] :=
  ⟨claim_C2_amended.1 _ _ (by decide) (by decide),
   claim_C2_amended.2.1 _ _ (by decide) (by decide),
   claim_C2_amended.2.2 _ _ (by decide) (by decide)⟩

/-! ### OpenAI response shapes and text extraction (processWithOpenAI) -/

/-- One entry of an output item content array in the responses dialect:
its type tag and its optional text. -/
structure OutputContent where
  type : String
  text : Option String
deriving Repr

/-- One entry of the responses-dialect output array. -/
structure OutputItem where
  type : String
  content : Option (List OutputContent)
deriving Repr

/-- One entry of a chat message content array. -/
structure ChatPart where
  text : Option String
deriving Repr

/-- The content of a chat message: a plain string or an array of parts. -/
inductive ChatContent
  | str (s : String)
  | arr (parts : List ChatPart)
deriving Repr

/-- A chat message or delta object. -/
structure ChatMessage where
  content : Option ChatContent
deriving Repr

/-- One entry of the chat-completions choices array. -/
structure ChatChoice where
  message : Option ChatMessage
  delta : Option ChatMessage
  text : Option String
deriving Repr

/-- An OpenAI response body as read by processWithOpenAI: an output array
marks the responses dialect, a choices array the chat dialect, and
output_text is the flat fallback field. -/
structure OpenAIResponse where
  output : Option (List OutputItem)
  output_text : Option String
  choices : Option (List ChatChoice)
deriving Repr

/-- The inner content scan of the responses-dialect extraction: the first
content entry typed output_text with a truthy text wins, trimmed, even when
the trim leaves it empty (the inner loop in the source breaks there). -/
def extractFromContents : List OutputContent → Option String
  | [] => none
  | c :: rest =>
    if c.type = "output_text" ∧ ¬(c.text.getD "" = "") then some (strTrim (c.text.getD ""))
    else extractFromContents rest

/-- The output-array scan of the responses-dialect extraction: a message item
whose content scan produced non-blank text wins; a blank scan result moves on
to the next item. -/
def extractFromOutput : List OutputItem → String
  | [] => ""
  | item :: rest =>
    if item.type = "message" ∧ item.content.isSome = true then
      match extractFromContents (item.content.getD []) with
      | some t => if t = "" then extractFromOutput rest else t
      | none => extractFromOutput rest
    else extractFromOutput rest

/-- The part scan of a chat message content array: the first part whose text
trims to non-blank wins. -/
def partExtract : List ChatPart → Option String
  | [] => none
  | p :: rest =>
    match p.text with
    | some s => if ¬(strTrim s = "") then some (strTrim s) else partExtract rest
    | none => partExtract rest

/-- The choices scan of the chat-completions extraction: message content as a
non-blank string, else content as an array probed for a non-blank part, else
the legacy choice text field, else the next choice. -/
def extractFromChoices : List ChatChoice → String
  | [] => ""
  | ch :: rest =>
    let msg := match ch.message with
      | some m => some m
      | none => ch.delta
    let content := msg.bind (fun m => m.content)
    let fromContent : Option String := match content with
      | some (ChatContent.str s) => if ¬(strTrim s = "") then some (strTrim s) else none
      | some (ChatContent.arr ps) => partExtract ps
      | none => none
    match fromContent with
    | some t => t
    | none =>
      match ch.text with
      | some s => if ¬(strTrim s = "") then strTrim s else extractFromChoices rest
      | none => extractFromChoices rest

/-- The response-text extraction of processWithOpenAI: responses-dialect
output first, then the flat output_text field, then the chat choices. -/
def extractOpenAIText (r : OpenAIResponse) : String :=
  let t1 := match r.output with
    | some items => extractFromOutput items
    | none => ""
  let t2 := if t1 = "" then
      (match r.output_text with
       | some s => strTrim s
       | none => t1)
    else t1
  if t2 = "" then
    (match r.choices with
     | some cs => extractFromChoices cs
     | none => t2)
  else t2

/-- The empty-response fallback at the end of processWithOpenAI: a blank
extraction returns the original input text unchanged. -/
def openAIFinalize (body : OpenAIResponse) (text : String) : Except String String :=
  let responseText := extractOpenAIText body
  if responseText = "" then Except.ok text else Except.ok responseText

/-! ### OpenAI transport with dialect probing -/

/-- Outcome of one fetch against one endpoint candidate, as observed by the
candidate loop: a parsed JSON body, a non-2xx status with its derived error
message, or a thrown network or JSON error. -/
inductive FetchOutcome
  | ok (body : OpenAIResponse)
  | httpError (status : Nat) (message : String)
  | netError (message : String)

/-- The candidate loop inside the withRetry callback of processWithOpenAI: a
404 or 405 on the responses dialect records the chat preference and falls
through to the next candidate; any other failure on the responses candidate
also falls through (the throw is caught by the loop catch); a failure on the
chat candidate is terminal; success records the succeeding dialect. -/
def openAiAttempt (server : String → Dialect → FetchOutcome) (base : String) :
    List EndpointCandidate → Option String → PrefState →
    Except String OpenAIResponse × PrefState
  | [], lastError, st => (Except.error (lastError.getD "No OpenAI endpoint responded"), st)
  | c :: rest, lastError, st =>
    match server c.url c.type with
    | FetchOutcome.ok body => (Except.ok body, rememberOpenAiPreference st base c.type)
    | FetchOutcome.httpError status msg =>
      if (status = 404 ∨ status = 405) ∧ c.type = Dialect.responses then
        openAiAttempt server base rest (some msg)
          (rememberOpenAiPreference st base Dialect.chat)
      else if c.type = Dialect.responses then
        openAiAttempt server base rest (some msg) st
      else (Except.error msg, st)
    | FetchOutcome.netError msg =>
      if c.type = Dialect.responses then openAiAttempt server base rest (some msg) st
      else (Except.error msg, st)

/-- Modelled from the spec: withRetry with createApiRetryStrategy from
utils/retry, which is not under src. A bounded number of sequential attempts,
retrying after a failed attempt and surfacing the last failure; backoff
delays have no observable effect in this embedding. -/
def withRetry {σ α : Type} : Nat → (σ → Except String α × σ) → σ → Except String α × σ
  | 0, _, s => (Except.error "No attempts", s)
  | 1, f, s => f s
  | n + 2, f, s =>
    match f s with
    | (Except.ok a, s2) => (Except.ok a, s2)
    | (Except.error _, s2) => withRetry (n + 1) f s2

/-- Environment of processWithOpenAI: the two localStorage reads, the
credential environment and the transport oracle mapping each attempted
endpoint URL and dialect to its outcome. -/
structure OpenAIEnv where
  reasoningProvider : Option String
  cloudReasoningBaseUrl : Option String
  keyEnv : KeyEnv
  server : String → Dialect → FetchOutcome

/-- Embedding of ReasoningService.processWithOpenAI: the in-flight guard,
the credential lookup (custom key for the custom provider), base and
candidate resolution, the retried candidate loop, then extraction with the
empty-response fallback. Request-body construction feeds only the transport
oracle and is elided; logging is elided. -/
def processWithOpenAI (env : OpenAIEnv) (isProcessing : Bool) (st : PrefState)
    (text model : String) : Except String String × PrefState :=
  if isProcessing then (Except.error "Already processing a request", st)
  else
    match getApiKey
        (if env.reasoningProvider.getD "" = "custom" then Provider.custom else Provider.openai)
        env.keyEnv with
    | Except.error e => (Except.error e, st)
    | Except.ok _ =>
      let openAiBase := getConfiguredOpenAIBase env.reasoningProvider env.cloudReasoningBaseUrl
      let cst := getOpenAIEndpointCandidates st openAiBase
      match withRetry 3 (openAiAttempt env.server openAiBase cst.fst none) cst.snd with
      | (Except.error e, st2) => (Except.error e, st2)
      | (Except.ok body, st2) => (openAIFinalize body text, st2)

/-! ### Gemini pipeline (processWithGemini) -/

/-- One part of a Gemini candidate content. -/
structure GeminiPart where
  text : Option String
deriving Repr

/-- The content object of a Gemini candidate. -/
structure GeminiContent where
  parts : Option (List GeminiPart)
deriving Repr

/-- One entry of the Gemini candidates array. -/
structure GeminiCandidate where
  content : Option GeminiContent
  finishReason : Option String
deriving Repr

/-- A Gemini generateContent response body as read by processWithGemini. -/
structure GeminiResponse where
  candidates : Option (List GeminiCandidate)
deriving Repr

/-- Outcome of the single Gemini fetch: a parsed body, or a thrown error
message (non-2xx statuses and network errors both surface as throws). -/
inductive GeminiFetch
  | ok (body : GeminiResponse)
  | fail (message : String)

/-- Environment of processWithGemini: the credential environment and the
transport oracle. -/
structure GeminiEnv where
  keyEnv : KeyEnv
  server : GeminiFetch

/-- The truthiness test candidate.content?.parts?.[0]?.text of
processWithGemini, returning the text when it is truthy. -/
def candidateText (c : GeminiCandidate) : Option String :=
  match c.content with
  | none => none
  | some content =>
    match content.parts with
    | none => none
    | some [] => none
    | some (p :: _) =>
      match p.text with
      | none => none
      | some s => if s = "" then none else some s

/-- The token-limit error message of processWithGemini. -/
def geminiTokenLimitMsg : String :=
  "Gemini reached token limit before generating response. Try a shorter input or increase max tokens."

/-- One attempt of the Gemini fetch for the retry wrapper. -/
def geminiAttempt (env : GeminiEnv) : Unit → Except String GeminiResponse × Unit :=
  fun _ =>
    match env.server with
    | GeminiFetch.ok b => (Except.ok b, ())
    | GeminiFetch.fail m => (Except.error m, ())

/-- Embedding of ReasoningService.processWithGemini: the in-flight guard, the
credential lookup, the retried fetch, then normalization distinguishing a
missing candidates container, a MAX_TOKENS finish with no text, and a generic
empty response. Request-body construction and logging are elided. -/
def processWithGemini (env : GeminiEnv) (isProcessing : Bool)
    (text model : String) : Except String String :=
  if isProcessing then Except.error "Already processing a request"
  else
    match getApiKey Provider.gemini env.keyEnv with
    | Except.error e => Except.error e
    | Except.ok _ =>
      match (withRetry 3 (geminiAttempt env) ()).fst with
      | Except.error e => Except.error e
      | Except.ok response =>
        match response.candidates with
        | none => Except.error "Invalid response structure from Gemini API"
        | some [] => Except.error "Invalid response structure from Gemini API"
        | some (candidate :: _) =>
          match candidateText candidate with
          | some s => Except.ok (strTrim s)
          | none =>
            if candidate.finishReason = some "MAX_TOKENS" then
              Except.error geminiTokenLimitMsg
            else Except.error "Gemini returned empty response"

/-! ### PromptStudio testPrompt storage frame -/

/-- The localStorage content relevant to PromptStudio, as an association
list. -/
def Store : Type := List (String × String)

/-- The test-execution stage of PromptStudio.testPrompt: read the current
customUnifiedPrompt, overwrite it with the encoded edited prompt, run the
test call (which may read or write storage and may fail), then in the finally
block restore the saved value when it is truthy and remove the key otherwise
(the source tests the saved value with JavaScript truthiness, so a saved
empty string is removed, not restored). -/
def testPromptStorage (store : Store) (encodedPrompt : String)
    (call : Store → Store × Except String String) : Store × Except String String :=
  let current := lookupA store "customUnifiedPrompt"
  let s1 := setA store "customUnifiedPrompt" encodedPrompt
  let r := call s1
  let s3 := match current with
    | some v =>
      if ¬(v = "") then setA r.fst "customUnifiedPrompt" v
      else eraseA r.fst "customUnifiedPrompt"
    | none => eraseA r.fst "customUnifiedPrompt"
  (s3, r.snd)

/-! ### Remaining claim theorems -/

/-- Claim C10 counterexample: with a persisted customUnifiedPrompt equal to
the empty string before the call, the finally block of testPrompt removes the
key instead of restoring the empty value, so the persisted value after the
call differs from its value before. -/
theorem claim_C10_counterexample :
    lookupA [("customUnifiedPrompt", "")] "customUnifiedPrompt" = some ""
    ∧ lookupA (testPromptStorage [("customUnifiedPrompt", "")] "edited prompt"
          (fun s => (s, Except.ok "out"))).fst "customUnifiedPrompt" = none := by
  constructor <;> rfl

/-- Claim C10 as amended: after the test-execution stage of testPrompt, the
persisted customUnifiedPrompt equals its value before the call whenever that
value was a non-empty string (restored) or absent (removed), regardless of
what the test call did to storage and whether it succeeded or threw; a saved
empty string is removed rather than restored, because the finally block
restores only truthy values. -/
theorem claim_C10_amended :
    (∀ (store : Store) (encodedPrompt : String)
       (call : Store → Store × Except String String) (v : String),
       lookupA store "customUnifiedPrompt" = some v → ¬(v = "") →
       lookupA (testPromptStorage store encodedPrompt call).fst "customUnifiedPrompt"
         = some v)
    ∧ (∀ (store : Store) (encodedPrompt : String)
       (call : Store → Store × Except String String),
       lookupA store "customUnifiedPrompt" = none →
       lookupA (testPromptStorage store encodedPrompt call).fst "customUnifiedPrompt"
         = none)
    ∧ (∀ (store : Store) (encodedPrompt : String)
       (call : Store → Store × Except String String),
       lookupA store "customUnifiedPrompt" = some "" →
       lookupA (testPromptStorage store encodedPrompt call).fst "customUnifiedPrompt"
         = none) := by
  refine ⟨?_, ?_, ?_⟩
  · intro store encodedPrompt call v h hv
    simp [testPromptStorage, h, hv, lookupA_setA]
  · intro store encodedPrompt call h
    simp [testPromptStorage, h, lookupA_eraseA]
  · intro store encodedPrompt call h
    simp [testPromptStorage, h, lookupA_eraseA]

/-- Claim C10 witness: the amended restore, absent and empty-string cases at
concrete stores, including a failing test call. -/
theorem claim_C10_witness :
    lookupA (testPromptStorage [("customUnifiedPrompt", "saved prompt")] "edited prompt"
        (fun s => (s, Except.error "boom"))).fst "customUnifiedPrompt" = some "saved prompt"
    ∧ lookupA (testPromptStorage [] "edited prompt"
        (fun s => (s, Except.ok "out"))).fst "customUnifiedPrompt" = none
    ∧ lookupA (testPromptStorage [("customUnifiedPrompt", "")] "edited prompt"
        (fun s => (s, Except.error "boom"))).fst "customUnifiedPrompt" = none :=
  ⟨claim_C10_amended.1 [("customUnifiedPrompt", "saved prompt")] "edited prompt"
     (fun s => (s, Except.error "boom")) "saved prompt" rfl (by decide),
   claim_C10_amended.2.1 [] "edited prompt" (fun s => (s, Except.ok "out")) rfl,
   claim_C10_amended.2.2 [("customUnifiedPrompt", "")] "edited prompt"
     (fun s => (s, Except.error "boom")) rfl⟩

/-- The empty preference state at the start of a fresh service. -/
def prefState0 : PrefState := { mem := [], stored := [] }

/-- A credential environment with every provider key cached. -/
def keyEnvTest : KeyEnv :=
  { cache := fun _ => some "sk-test"
    fetchKey := fun _ => Except.ok (some "sk-test")
    customIpcKey := Except.ok (some "sk-test")
    lsCustomKey := none }

/-- The transport oracle of the C1 scenario: every responses-dialect attempt
returns HTTP 404 and every chat-dialect attempt returns HTTP 200 with the
given body. -/
def probeServer (chatBody : OpenAIResponse) : String → Dialect → FetchOutcome :=
  fun _ d =>
    match d with
    | Dialect.responses => FetchOutcome.httpError 404 "Not Found"
    | Dialect.chat => FetchOutcome.ok chatBody

/-- The C1 scenario environment: default provider, default base, cached key,
probing transport. -/
def probeEnv (chatBody : OpenAIResponse) : OpenAIEnv :=
  { reasoningProvider := none
    cloudReasoningBaseUrl := none
    keyEnv := keyEnvTest
    server := probeServer chatBody }

/-- One run of processWithOpenAI in the C1 scenario from a fresh state. -/
def probeRun (chatBody : OpenAIResponse) (text model : String) :
    Except String String × PrefState :=
  processWithOpenAI (probeEnv chatBody) false prefState0 text model

/-- The preference state mapping the default base to the chat dialect in both
the in-memory and the persisted map. -/
def prefStateChat : PrefState :=
  { mem := [(OPENAI_BASE, Dialect.chat)], stored := [(OPENAI_BASE, Dialect.chat)] }

/-- Claim C1: when the responses candidate returns 404 and the chat candidate
returns 200 with extractable text, processWithOpenAI succeeds with the
extracted text, the chat preference is remembered for the base in memory and
in the persisted map, and candidate resolution for that base afterwards
yields only the chat candidate. -/
theorem claim_C1 (chatBody : OpenAIResponse) (text model : String)
    (h : ¬(extractOpenAIText chatBody = "")) :
    (probeRun chatBody text model).fst = Except.ok (extractOpenAIText chatBody)
    ∧ lookupA (probeRun chatBody text model).snd.mem OPENAI_BASE = some Dialect.chat
    ∧ lookupA (probeRun chatBody text model).snd.stored OPENAI_BASE = some Dialect.chat
    ∧ (getOpenAIEndpointCandidates (probeRun chatBody text model).snd OPENAI_BASE).fst
        = [{ url := buildApiUrl OPENAI_BASE "/chat/completions", type := Dialect.chat }] := by
  refine ⟨?_, ?_, ?_, ?_⟩
  · show (if extractOpenAIText chatBody = "" then Except.ok text
          else Except.ok (extractOpenAIText chatBody)) = Except.ok (extractOpenAIText chatBody)
    rw [if_neg h]
  · show lookupA prefStateChat.mem OPENAI_BASE = some Dialect.chat
    decide
  · show lookupA prefStateChat.stored OPENAI_BASE = some Dialect.chat
    decide
  · show (getOpenAIEndpointCandidates prefStateChat OPENAI_BASE).fst
        = [{ url := buildApiUrl OPENAI_BASE "/chat/completions", type := Dialect.chat }]
    decide

/-- A chat-completions body whose first choice carries non-blank message
content. -/
def chatBody0 : OpenAIResponse :=
  { output := none
    output_text := none
    choices := some [{ message := some { content := some (ChatContent.str "Cleaned text.") }
                       delta := none
                       text := none }] }

/-- Claim C1 witness: the probing scenario at a concrete chat body. -/
theorem claim_C1_witness :
    (probeRun chatBody0 "um so raw input" "gpt-4o-mini").fst
        = Except.ok (extractOpenAIText chatBody0)
    ∧ lookupA (probeRun chatBody0 "um so raw input" "gpt-4o-mini").snd.mem OPENAI_BASE
        = some Dialect.chat
    ∧ lookupA (probeRun chatBody0 "um so raw input" "gpt-4o-mini").snd.stored OPENAI_BASE
        = some Dialect.chat
    ∧ (getOpenAIEndpointCandidates
          (probeRun chatBody0 "um so raw input" "gpt-4o-mini").snd OPENAI_BASE).fst
        = [{ url := buildApiUrl OPENAI_BASE "/chat/completions", type := Dialect.chat }] :=
  claim_C1 chatBody0 "um so raw input" "gpt-4o-mini" (by decide)

/-- The C4 scenario environment: every attempt succeeds with the given body. -/
def okServerEnv (body : OpenAIResponse) : OpenAIEnv :=
  { reasoningProvider := none
    cloudReasoningBaseUrl := none
    keyEnv := keyEnvTest
    server := fun _ _ => FetchOutcome.ok body }

/-- One run of processWithOpenAI in the C4 scenario from a fresh state. -/
def okRun (body : OpenAIResponse) (text model : String) :
    Except String String × PrefState :=
  processWithOpenAI (okServerEnv body) false prefState0 text model

/-- The preference state mapping the default base to the responses dialect. -/
def prefStateResponses : PrefState :=
  { mem := [(OPENAI_BASE, Dialect.responses)], stored := [(OPENAI_BASE, Dialect.responses)] }

/-- Claim C4: a structurally valid chat-completions response whose extraction
is blank makes processWithOpenAI return the original input text as a success,
not an error and not the blank extraction. -/
theorem claim_C4 (body : OpenAIResponse) (text model : String)
    (hValid : body.choices.isSome = true)
    (hEmpty : extractOpenAIText body = "") :
    (okRun body text model).fst = Except.ok text := by
  have key : okRun body text model = (openAIFinalize body text, prefStateResponses) := rfl
  rw [key]
  show (if extractOpenAIText body = "" then Except.ok text
        else Except.ok (extractOpenAIText body)) = Except.ok text
  rw [if_pos hEmpty]

/-- A chat-completions body whose only choice has empty string content. -/
def emptyChatBody : OpenAIResponse :=
  { output := none
    output_text := none
    choices := some [{ message := some { content := some (ChatContent.str "") }
                       delta := none
                       text := none }] }

/-- Claim C4 witness: the empty-content body at a concrete input text. -/
theorem claim_C4_witness :
    (okRun emptyChatBody "hello there world" "gpt-4o").fst = Except.ok "hello there world" :=
  claim_C4 emptyChatBody "hello there world" "gpt-4o" rfl rfl

/-- The C7 scenario environment around a given response body. -/
def geminiEnvOf (r : GeminiResponse) : GeminiEnv :=
  { keyEnv := keyEnvTest, server := GeminiFetch.ok r }

/-- Claim C7: a Gemini response whose sole candidate finished with MAX_TOKENS
and has no truthy text part fails with the token-limit message, which differs
from the generic empty-response message. -/
theorem claim_C7 (cand : GeminiCandidate) (text model : String)
    (hNoText : candidateText cand = none)
    (hFin : cand.finishReason = some "MAX_TOKENS") :
    processWithGemini (geminiEnvOf { candidates := some [cand] }) false text model
        = Except.error geminiTokenLimitMsg
    ∧ ¬(geminiTokenLimitMsg = "Gemini returned empty response") := by
  constructor
  · have key : processWithGemini (geminiEnvOf { candidates := some [cand] }) false text model
        = (match candidateText cand with
           | some s => Except.ok (strTrim s)
           | none =>
             if cand.finishReason = some "MAX_TOKENS" then Except.error geminiTokenLimitMsg
             else Except.error "Gemini returned empty response") := rfl
    rw [key, hNoText]
    simp [hFin]
  · decide

/-- A candidate with no content and a MAX_TOKENS finish reason. -/
def maxTokensCand : GeminiCandidate :=
  { content := none, finishReason := some "MAX_TOKENS" }

/-- Claim C7 witness: the MAX_TOKENS scenario at a concrete candidate. -/
theorem claim_C7_witness :
    processWithGemini (geminiEnvOf { candidates := some [maxTokensCand] }) false
        "some long input" "gemini-2.5-flash"
      = Except.error geminiTokenLimitMsg
    ∧ ¬(geminiTokenLimitMsg = "Gemini returned empty response") :=
  claim_C7 maxTokensCand "some long input" "gemini-2.5-flash" rfl rfl

/-- Claim C8: with the in-flight flag set, a second invocation fails
immediately with the busy error in every guarded entry point, for every
transport and credential environment and without touching the preference
state: processWithOpenAI, processWithGemini, and the local bridge processText
when the provider environment variable does not disable it. -/
theorem claim_C8 :
    (∀ (env : OpenAIEnv) (st : PrefState) (text model : String),
       processWithOpenAI env true st text model
         = (Except.error "Already processing a request", st))
    ∧ (∀ (env : GeminiEnv) (text model : String),
       processWithGemini env true text model = Except.error "Already processing a request")
    ∧ (∀ (env : LocalBridgeEnv) (text modelId : String),
       env.envReasoningProvider = none →
       LocalBridge.processText env true text modelId
         = Except.error "Already processing a request") := by
  refine ⟨fun env st text model => rfl, fun env text model => rfl, ?_⟩
  intro env text modelId h
  simp [LocalBridge.processText, h]

/-- A local bridge environment with no provider override, one downloaded
model and an inference oracle. -/
def localEnv0 : LocalBridgeEnv :=
  { envReasoningProvider := none
    models := [("qwen-3b", true)]
    inference := fun _ text => Except.ok text }

/-- Claim C8 witness: the busy rejection at concrete environments for the
three guarded entry points. -/
theorem claim_C8_witness :
    processWithOpenAI (okServerEnv emptyChatBody) true prefState0 "txt" "gpt-4o"
        = (Except.error "Already processing a request", prefState0)
    ∧ processWithGemini (geminiEnvOf { candidates := none }) true "txt" "gemini-2.5-flash"
        = Except.error "Already processing a request"
    ∧ LocalBridge.processText localEnv0 true "txt" "qwen-3b"
        = Except.error "Already processing a request" :=
  ⟨claim_C8.1 (okServerEnv emptyChatBody) prefState0 "txt" "gpt-4o",
   claim_C8.2.1 (geminiEnvOf { candidates := none }) "txt" "gemini-2.5-flash",
   claim_C8.2.2 localEnv0 "txt" "qwen-3b" rfl⟩
